import Mathlib

/-!
Verification development for the hybrid field-extraction engine of the
fluxo-cash-bot repository (src/app/extractors.py, src/app/pdf_extractor.py).

The Python sources are embedded shallowly:

* strings are modelled as List Char (converted from String at the
  boundaries), Python str operations become explicit recursive functions;
* Python float values produced by the extraction pipeline are modelled by
  the exact-decimal type PyFloat with a rational reading toRat; every
  number the pipeline manipulates is a short decimal, so the decimal
  semantics is the intended reading of the code;
* the Python float constructor, applied by the sources only to strings made
  of digits, periods and commas, is modelled by pyFloat? on its plain
  decimal-literal fragment (optional integer part, optional single period,
  optional fractional digits);
* the regular-expression searches of pdf_extractor.py are modelled by a
  small backtracking engine (RE, matchEnds, reSearch) whose priority order
  mirrors the leftmost / lazy / greedy semantics of re.search on the
  pattern subset the sources use;
* effectful parts (pdfplumber, the OpenAI client, the rasterizer, the
  filesystem) become explicit inputs: an Env record carries the outcome of
  each external capability, and the filesystem is a list of paths threaded
  through extract_proof_data.
-/

namespace FluxoCash

/-! ## Basic string helpers (models of Python str operations) -/

/-- Models Python str.strip on both ends (whitespace trimming). -/
def trimChars (cs : List Char) : List Char :=
  ((cs.dropWhile Char.isWhitespace).reverse.dropWhile Char.isWhitespace).reverse

/-- Models the call v.replace applied to the currency marker: every
occurrence of the two-character marker R followed by the dollar sign is
removed, scanning left to right (extractors.py line 213). -/
def removeRS : List Char → List Char
  | 'R' :: '$' :: rest => removeRS rest
  | c :: rest => c :: removeRS rest
  | [] => []

/-- Models extractors.py line 213: strip the currency marker, then trim. -/
def stripCurrency (s : String) : List Char :=
  trimChars (removeRS s.toList)

/-- Models Python str.split on a single separator character: splits at every
occurrence, keeping empty segments, so that the empty string yields one
empty segment. -/
def splitOnC (sep : Char) : List Char → List (List Char)
  | [] => [[]]
  | c :: rest =>
    if c = sep then [] :: splitOnC sep rest
    else
      match splitOnC sep rest with
      | [] => [[c]]
      | s :: ss => (c :: s) :: ss

/-- Models the call replacing every comma by a period
(extractors.py line 223, pdf_extractor.py line 117). -/
def mapCommaDot (cs : List Char) : List Char :=
  cs.map (fun c => if c = ',' then '.' else c)

/-- Numeric value of a digit string, most significant digit first. -/
def digitsVal (cs : List Char) : Nat :=
  cs.foldl (fun n c => 10 * n + (c.toNat - 48)) 0

/-- Every character is a decimal digit. -/
def allDigits (cs : List Char) : Bool :=
  cs.all Char.isDigit

/-- Exact decimal number, the model of the Python float values this
pipeline produces: the value is m / 10 ^ e, negated when neg is true.
Every float the sources build comes from a short decimal literal, so this
representation is exact and fully computable. -/
structure PyFloat where
  neg : Bool
  m : Nat
  e : Nat
  deriving DecidableEq, Repr

/-- Numeric reading of a PyFloat as a rational. -/
def PyFloat.toRat (x : PyFloat) : Rat :=
  (if x.neg then -(x.m : Rat) else (x.m : Rat)) / (10 : Rat) ^ x.e

/-- Python truthiness of a float: zero is falsy. -/
def PyFloat.isZero (x : PyFloat) : Bool := x.m = 0

/-- Models the Python comparison v greater than 0. -/
def PyFloat.isPos (x : PyFloat) : Bool := !x.neg && x.m ≠ 0

/-- Models the Python float constructor on the plain decimal-literal
fragment the pipeline feeds it (digit strings with at most one period).
Returns none where Python float raises ValueError. Signs, exponents and
digit-group underscores, which no code path of the sources produces, are
outside the modelled fragment. -/
def pyFloat? (cs : List Char) : Option PyFloat :=
  match splitOnC '.' cs with
  | [a] =>
    if a ≠ [] ∧ allDigits a then some ⟨false, digitsVal a, 0⟩ else none
  | [a, b] =>
    if (a ≠ [] ∨ b ≠ []) ∧ allDigits a ∧ allDigits b then
      some ⟨false, digitsVal a * 10 ^ b.length + digitsVal b, b.length⟩
    else none
  | _ => none

/-! ## Currency normalizer

The branch logic below appears verbatim in two places of the source:
extractors.py lines 220-235 (vision path) and pdf_extractor.py
lines 114-129 (pdf-text path). -/

/-- Models the shared string transformation of the currency normalizer:
if a comma is present, remove every period and turn the comma into a
period; otherwise split on periods and keep the string as-is exactly when
there are two segments and the second has at most two characters, else
remove every period. -/
def normalizeNumeric (cs : List Char) : List Char :=
  if ',' ∈ cs then
    mapCommaDot (cs.filter (· ≠ '.'))
  else
    match splitOnC '.' cs with
    | [_, b] => if b.length ≤ 2 then cs else cs.filter (· ≠ '.')
    | _ => cs.filter (· ≠ '.')

/-- Models the pdf-text value conversion (pdf_extractor.py lines 107-132):
the captured group is stripped, transformed, and fed to float; a ValueError
becomes none (the except branch continues with the next pattern). -/
def normalizeAmount (cs : List Char) : Option PyFloat :=
  pyFloat? (normalizeNumeric cs)

/-- Models the vision-path value conversion (extractors.py lines 211-237):
strip the currency marker, transform, then float(v or 0), which maps the
empty string to zero instead of raising. -/
def visionValue? (s : String) : Option PyFloat :=
  let cs := normalizeNumeric (stripCurrency s)
  if cs = [] then some ⟨false, 0, 0⟩ else pyFloat? cs

/-! ## Spec-side restatements of the normalizer claims -/

/-- Restates the specification of the comma case in its own words: remove
every period first, then replace the remaining comma with a decimal point,
and read the outcome as a number. -/
def claimCommaValue (cs : List Char) : Option PyFloat :=
  pyFloat? (mapCommaDot (cs.filter (· ≠ '.')))

/-- Restates the specification of the comma-free case in its own words:
with exactly two period-separated segments whose fractional segment has one
or two digits, parse as-is; otherwise remove every period and parse the
remainder as an integer-valued amount. -/
def claimNoCommaValue (cs : List Char) : Option PyFloat :=
  match splitOnC '.' cs with
  | [_, b] =>
    if 1 ≤ b.length ∧ b.length ≤ 2 then pyFloat? cs
    else pyFloat? (cs.filter (· ≠ '.'))
  | _ => pyFloat? (cs.filter (· ≠ '.'))

/-! ## Regular-expression engine

A small backtracking matcher for the pattern subset used by
pdf_extractor.py PATTERNS. Constructs: case-insensitive literals,
character classes with greedy bounded repetition, the lazy dot-all gap,
sequencing, ordered alternation, greedy option. matchEnds returns the
possible end positions of a match starting at i in backtracking priority
order, which makes reSearch reproduce the leftmost / first-alternative /
lazy-gap / greedy-class semantics of re.search on these patterns. -/

inductive RE where
  /-- Literal string; compared case-insensitively when ci is true
  (re.IGNORECASE; ASCII folding, which covers every literal used). -/
  | lit (ci : Bool) (s : String)
  /-- Character class repeated greedily between lo and hi times
  (hi = none means unbounded). -/
  | cls (p : Char → Bool) (lo : Nat) (hi : Option Nat)
  /-- Lazy dot-all gap, the translation of .*? under re.DOTALL. -/
  | gap
  | seq (r1 r2 : RE)
  | alt (r1 r2 : RE)
  /-- Greedy option, the translation of a trailing question mark. -/
  | opt (r : RE)

/-- Case-insensitive/exact character comparison. -/
def charEq (ci : Bool) (a b : Char) : Bool :=
  if ci then a.toLower = b.toLower else a = b

/-- Literal match of pat against the front of rest. -/
def litAt (ci : Bool) : List Char → List Char → Bool
  | [], _ => true
  | _ :: _, [] => false
  | p :: ps, c :: rest => charEq ci p c && litAt ci ps rest

/-- End positions, in backtracking priority order, of a match of r in cs
starting at position i. -/
def matchEnds (r : RE) (cs : List Char) (i : Nat) : List Nat :=
  match r with
  | .lit ci s => if litAt ci s.toList (cs.drop i) then [i + s.length] else []
  | .cls p lo hi =>
    let run := ((cs.drop i).takeWhile p).length
    let m := match hi with | some h => min run h | none => run
    if m < lo then [] else (List.range (m + 1 - lo)).map (fun k => i + m - k)
  | .gap => (List.range (cs.length + 1 - i)).map (fun k => i + k)
  | .seq r1 r2 => (matchEnds r1 cs i).flatMap (fun e => matchEnds r2 cs e)
  | .alt r1 r2 => matchEnds r1 cs i ++ matchEnds r2 cs i
  | .opt r1 => matchEnds r1 cs i ++ [i]

/-- Search for prefix-then-capture starting exactly at position i: first
prefix end (in priority order) from which the capture matches; the capture
takes its own first end. Every pattern in PATTERNS has exactly one capture
group with nothing after it, so a match is a capture span. -/
def tryAt (pre cap : RE) (cs : List Char) (i : Nat) : Option (Nat × Nat) :=
  (matchEnds pre cs i).findSome? (fun e =>
    (matchEnds cap cs e).head?.map (fun f => (e, f)))

/-- Scan start positions i, i+1, ... (fuel-bounded) and return the first
successful capture span: the leftmost-match rule of re.search. -/
def searchFrom (pre cap : RE) (cs : List Char) : Nat → Nat → Option (Nat × Nat)
  | _, 0 => none
  | i, fuel + 1 =>
    match tryAt pre cap cs i with
    | some sp => some sp
    | none => searchFrom pre cap cs (i + 1) fuel

/-- Models re.search for a pattern split as prefix and single trailing
capture group: returns the capture span (start inclusive, end exclusive). -/
def reSearch (pre cap : RE) (cs : List Char) : Option (Nat × Nat) :=
  searchFrom pre cap cs 0 (cs.length + 1)

/-- Substring of cs between positions s (inclusive) and e (exclusive). -/
def slice (cs : List Char) (s e : Nat) : List Char :=
  (cs.drop s).take (e - s)

/-! ## The PATTERNS table of pdf_extractor.py (lines 19-70)

Each regex is compiled to a (prefix, capture) pair of RE values. Searches
for value, sender and receiver keys run under re.IGNORECASE and re.DOTALL;
beneficiary and endtoend under re.IGNORECASE; date with no flags. -/

/-- Sequence a list of RE values. -/
def rSeq (rs : List RE) : RE := rs.foldr RE.seq (RE.lit false "")

/-- Never-matching RE, the base of an ordered alternation fold. -/
def reFail : RE := RE.cls (fun _ => false) 1 (some 1)

/-- Ordered alternation of a list of RE values. -/
def rAlt (rs : List RE) : RE := rs.foldr RE.alt reFail

/-- Ordered alternation of case-insensitive literals. -/
def rLits (ls : List String) : RE := rAlt (ls.map (RE.lit true))

/-- Decimal digit, the model of the regex class backslash-d. -/
def digitC (c : Char) : Bool := c.isDigit

/-- Whitespace, the model of the regex class backslash-s. -/
def spaceC (c : Char) : Bool := c.isWhitespace

/-- The class of a colon or whitespace. -/
def colonSpaceC (c : Char) : Bool := c = ':' || c.isWhitespace

/-- Lowercase hex digit class under IGNORECASE (letters a-f, digits). -/
def hexC (c : Char) : Bool :=
  c.isDigit || ('a' ≤ c && c ≤ 'f') || ('A' ≤ c && c ≤ 'F')

/-- The class of a digit, period or comma (the money capture group). -/
def valChar (c : Char) : Bool := c.isDigit || c = '.' || c = ','

/-- The bracket class holding the letter a with and without acute accent,
under IGNORECASE. -/
def aAccC (c : Char) : Bool := c = 'a' || c = 'A' || c = 'á' || c = 'Á'

/-- Uppercase letter A-Z or in the accented range, under IGNORECASE (the
lowercase letters whose uppercase falls in those ranges also match). -/
def upperAccC (c : Char) : Bool :=
  ('A' ≤ c && c ≤ 'Z') || ('a' ≤ c && c ≤ 'z') ||
  ('À' ≤ c && c ≤ 'Ú') || ('à' ≤ c && c ≤ 'ö') || ('ø' ≤ c && c ≤ 'ú')

/-- The beneficiary-name continuation class: upperAccC or whitespace. -/
def upperAccSpC (c : Char) : Bool := upperAccC c || c.isWhitespace

/-- Class of the email local part. -/
def emailLocalC (c : Char) : Bool :=
  c.isAlpha || c.isDigit || c = '.' || c = '_' || c = '%' || c = '+' || c = '-'

/-- Class of the email domain part. -/
def emailDomainC (c : Char) : Bool :=
  c.isAlpha || c.isDigit || c = '.' || c = '-'

/-- Class of an ASCII letter. -/
def alphaC (c : Char) : Bool := c.isAlpha

/-- Class of a slash or hyphen (the date separators). -/
def dateSepC (c : Char) : Bool := c = '/' || c = '-'

/-- Exactly n repetitions of class p. -/
def clsN (p : Char → Bool) (n : Nat) : RE := RE.cls p n (some n)

/-- Zero or more repetitions of class p, greedy. -/
def clsStar (p : Char → Bool) : RE := RE.cls p 0 none

/-- One or more repetitions of class p, greedy. -/
def clsPlus (p : Char → Bool) : RE := RE.cls p 1 none

/-- The random-key capture: a hyphen-separated hex UUID. -/
def reUUID : RE :=
  rSeq [clsN hexC 8, RE.lit false "-", clsN hexC 4, RE.lit false "-",
        clsN hexC 4, RE.lit false "-", clsN hexC 4, RE.lit false "-",
        clsN hexC 12]

/-- The formatted tax-id capture: dd.ddd.ddd/dddd-dd. -/
def reCNPJ : RE :=
  rSeq [clsN digitC 2, RE.lit false ".", clsN digitC 3, RE.lit false ".",
        clsN digitC 3, RE.lit false "/", clsN digitC 4, RE.lit false "-",
        clsN digitC 2]

/-- The email capture group. -/
def reEmail : RE :=
  rSeq [clsPlus emailLocalC, RE.lit false "@", clsPlus emailDomainC,
        RE.lit false ".", RE.cls alphaC 2 none]

/-- The phone capture group: +55, optional spacing, 2 digits, optional
spacing, 4-5 digits, optional hyphen or space, 4 digits. -/
def rePhone : RE :=
  rSeq [RE.lit false "+55", clsStar spaceC, clsN digitC 2, clsStar spaceC,
        RE.cls digitC 4 (some 5), RE.opt (clsN dateSepC 1), clsN digitC 4]

/-- Directional label vocabulary of the sender field (pattern tiers
without the quem-enviou variant). -/
def senderWords : List String := ["pagador", "origem", "de", "remetente"]

/-- Directional label vocabulary of the receiver field, as plain words;
the accented-class labels are handled by dedicated RE values. -/
def receiverWords : List String := ["favorecido", "recebedor", "para"]

/-- The label destinat[aá]rio. -/
def destinRE : RE := rSeq [RE.lit true "destinat", clsN aAccC 1, RE.lit true "rio"]

/-- The label benefici[aá]rio. -/
def beneficRE : RE := rSeq [RE.lit true "benefici", clsN aAccC 1, RE.lit true "rio"]

/-- The label quem followed by whitespace and enviou. -/
def quemEnviouRE : RE := rSeq [RE.lit true "quem", clsPlus spaceC, RE.lit true "enviou"]

/-- The label quem followed by whitespace and recebeu. -/
def quemRecebeuRE : RE := rSeq [RE.lit true "quem", clsPlus spaceC, RE.lit true "recebeu"]

/-- Sender directional alternation of the first pattern tier. -/
def dirSender1 : RE := rAlt (senderWords.map (RE.lit true) ++ [quemEnviouRE])

/-- Sender directional alternation of the later pattern tiers. -/
def dirSender : RE := rLits senderWords

/-- Receiver directional alternation of the first pattern tier
(favorecido, destinat[aá]rio, recebedor, para, benefici[aá]rio,
quem recebeu, in pattern order). -/
def dirReceiver1 : RE :=
  rAlt [RE.lit true "favorecido", destinRE, RE.lit true "recebedor",
        RE.lit true "para", beneficRE, quemRecebeuRE]

/-- Receiver directional alternation of the later pattern tiers. -/
def dirReceiver : RE :=
  rAlt [RE.lit true "favorecido", destinRE, RE.lit true "recebedor",
        RE.lit true "para", beneficRE]

/-- The alternation of the chave and pix tokens. -/
def chavePixRE : RE := rAlt [RE.lit true "chave", RE.lit true "pix"]

/-- PATTERNS valor (pdf_extractor.py lines 20-25). -/
def valorPats : List (RE × RE) :=
  [ (rSeq [RE.lit true "Valor", clsStar colonSpaceC, RE.opt (RE.lit true "R"),
           RE.opt (RE.lit false "$"), clsStar spaceC], clsPlus valChar),
    (rSeq [RE.lit true "R$", clsStar spaceC], clsPlus valChar),
    (rSeq [rLits ["valor", "quantia", "total"], clsStar colonSpaceC,
           RE.opt (RE.lit true "R"), RE.opt (RE.lit false "$"), clsStar spaceC],
     clsPlus valChar),
    (rSeq [RE.lit true "Valor", clsPlus spaceC, RE.lit true "da", clsPlus spaceC,
           RE.lit true "transação", clsStar colonSpaceC, RE.opt (RE.lit true "R"),
           RE.opt (RE.lit false "$"), clsStar spaceC], clsPlus valChar) ]

/-- PATTERNS pix_remetente (pdf_extractor.py lines 26-41), eight tiers in
priority order. -/
def senderPats : List (RE × RE) :=
  [ (rSeq [dirSender1, RE.gap, chavePixRE, clsStar colonSpaceC], reUUID),
    (rSeq [chavePixRE, clsStar colonSpaceC, dirSender, RE.gap], reUUID),
    (rSeq [dirSender, RE.gap], reUUID),
    (rSeq [dirSender, RE.gap], reCNPJ),
    (rSeq [dirSender, RE.gap], clsN digitC 14),
    (rSeq [dirSender, RE.gap], clsN digitC 11),
    (rSeq [dirSender, RE.gap], reEmail),
    (rSeq [dirSender, RE.gap], rePhone) ]

/-- PATTERNS pix_destinatario (pdf_extractor.py lines 42-57), eight tiers
in priority order. -/
def receiverPats : List (RE × RE) :=
  [ (rSeq [dirReceiver1, RE.gap, chavePixRE, clsStar colonSpaceC], reUUID),
    (rSeq [chavePixRE, clsStar colonSpaceC, dirReceiver, RE.gap], reUUID),
    (rSeq [dirReceiver, RE.gap], reUUID),
    (rSeq [dirReceiver, RE.gap], reCNPJ),
    (rSeq [dirReceiver, RE.gap], clsN digitC 14),
    (rSeq [dirReceiver, RE.gap], clsN digitC 11),
    (rSeq [dirReceiver, RE.gap], reEmail),
    (rSeq [dirReceiver, RE.gap], rePhone) ]

/-- PATTERNS beneficiario (pdf_extractor.py lines 58-60). -/
def benefPats : List (RE × RE) :=
  [ (rSeq [rAlt [RE.lit true "favorecido", beneficRE, RE.lit true "nome"],
           clsPlus colonSpaceC],
     rSeq [clsN upperAccC 1, RE.cls upperAccSpC 2 (some 50)]) ]

/-- PATTERNS endtoend (pdf_extractor.py lines 61-64). -/
def endPats : List (RE × RE) :=
  [ (RE.lit false "", rSeq [RE.lit true "E", clsN digitC 32]),
    (rSeq [RE.lit true "End", clsStar spaceC, RE.lit true "to", clsStar spaceC,
           RE.lit true "End", clsPlus colonSpaceC],
     rSeq [RE.lit true "E", clsN digitC 32]) ]

/-- PATTERNS data (pdf_extractor.py lines 65-69); searched with no flags. -/
def dataPats : List (RE × RE) :=
  [ (RE.lit false "", rSeq [clsN digitC 2, clsN dateSepC 1, clsN digitC 2,
                            clsN dateSepC 1, clsN digitC 4]),
    (RE.lit false "", rSeq [clsN digitC 4, clsN dateSepC 1, clsN digitC 2,
                            clsN dateSepC 1, clsN digitC 2]),
    (rSeq [RE.lit false "Data", clsPlus colonSpaceC],
     rSeq [clsN digitC 2, clsN dateSepC 1, clsN digitC 2, clsN dateSepC 1,
           clsN digitC 4]) ]

/-! ## Field extraction loops of extract_from_pdf_text -/

/-- First pattern of the list whose search matches; returns the capture
span. Models the per-field for-loops with break at the first match. -/
def extractFieldSpan (pats : List (RE × RE)) (cs : List Char) : Option (Nat × Nat) :=
  pats.findSome? (fun pc => reSearch pc.1 pc.2 cs)

/-- Extracted and stripped capture text of the first matching pattern,
the model of match.group(1).strip(). -/
def extractField (pats : List (RE × RE)) (cs : List Char) : Option String :=
  (extractFieldSpan pats cs).map (fun sp => (trimChars (slice cs sp.1 sp.2)).asString)

/-- Models the value loop (pdf_extractor.py lines 103-137): the first
pattern whose captured group both matches and converts without a
ValueError; a conversion failure continues with the next pattern. -/
def extractValue (cs : List Char) : Option PyFloat :=
  valorPats.findSome? (fun pc =>
    match reSearch pc.1 pc.2 cs with
    | some sp => normalizeAmount (trimChars (slice cs sp.1 sp.2))
    | none => none)

/-- Models the date-string normalization inside the date loop
(pdf_extractor.py lines 181-196): slash dates with exactly two slashes are
reordered or reseparated into ISO order depending on whether the first
segment has four characters; other slash counts leave the field unset;
dash dates are stored unchanged. -/
def normDate (d : List Char) : Option (List Char) :=
  if '/' ∈ d then
    if d.count '/' = 2 then
      match splitOnC '/' d with
      | [p0, p1, p2] =>
        if p0.length = 4 then some (d.map (fun c => if c = '/' then '-' else c))
        else some (p2 ++ '-' :: p1 ++ '-' :: p0)
      | _ => none
    else none
  else if '-' ∈ d then some d
  else none

/-- Models the date loop (pdf_extractor.py lines 177-196): the first
matching pattern wins (the loop breaks after it whether or not the
normalization stored a value); the capture is not stripped. -/
def extractDate (cs : List Char) : Option (List Char) :=
  match extractFieldSpan dataPats cs with
  | some sp => normDate (slice cs sp.1 sp.2)
  | none => none

/-! ## ExtractionResult and extract_from_pdf_text -/

/-- Flat record modelling the result dictionaries of both extractors.
A field holds none when the dictionary key is absent or maps to None. -/
structure ExtractionResult where
  value : Option PyFloat
  sender_pix_key : Option String
  receiver_pix_key : Option String
  beneficiary : Option String
  endtoend : Option String
  date : Option String
  method : Option String
  confidence : Option PyFloat
  success : Bool
  error : Option String
  deriving DecidableEq, Repr

/-- The recognizer pass of extract_from_pdf_text (pdf_extractor.py lines
93-196) over the extracted text. -/
structure PdfFields where
  value : Option PyFloat
  sender_pix_key : Option String
  receiver_pix_key : Option String
  beneficiary : Option String
  endtoend : Option String
  date : Option String
  deriving DecidableEq, Repr

/-- Runs every field loop of extract_from_pdf_text on the text. -/
def pdfRecognize (t : String) : PdfFields :=
  let cs := t.toList
  { value := extractValue cs
    sender_pix_key := extractField senderPats cs
    receiver_pix_key := extractField receiverPats cs
    beneficiary := extractField benefPats cs
    endtoend := extractField endPats cs
    date := (extractDate cs).map List.asString }

/-- Models extract_from_pdf_text (pdf_extractor.py lines 72-213). The
input is the text pdfplumber produced, or none when reading raised (the
except branch returns None). Returns none for the explicit
insufficient-data outcome: empty or short text, or no positive value. -/
def extract_from_pdf_text (pdfText : Option String) : Option ExtractionResult :=
  match pdfText with
  | none => none
  | some t =>
    if t = "" ∨ t.length < 50 then none
    else
      let d := pdfRecognize t
      match d.value with
      | some v =>
        if v.isPos then
          some { value := some v
                 sender_pix_key := d.sender_pix_key
                 receiver_pix_key := d.receiver_pix_key
                 beneficiary := d.beneficiary
                 endtoend := d.endtoend
                 date := d.date
                 method := some "pdf_text"
                 confidence := some ⟨false, 98, 2⟩
                 success := true
                 error := none }
        else none
      | none => none

/-! ## extract_proof_data (extractors.py lines 83-270)

External capabilities become explicit inputs. The filesystem is a list of
paths; creating the temporary raster appends its path, os.remove filters
it out. The vision response is the parsed JSON object, or an error string
when the request, the encoding or the JSON parse raised. -/

/-- JSON value of the valor field of the model response. -/
inductive JVal where
  | jnum (x : PyFloat)
  | jstr (s : String)
  deriving DecidableEq, Repr

/-- Python truthiness of a JSON value (null is modelled as none at the
Option level). -/
def JVal.truthy : JVal → Bool
  | .jnum x => !x.isZero
  | .jstr s => s ≠ ""

/-- Models the Python expression a or b over optional JSON values, where
none stands for a missing key or JSON null. -/
def pyOr (a b : Option JVal) : Option JVal :=
  match a with
  | some x => if x.truthy then some x else b
  | none => b

/-- Parsed JSON object of the vision-model response, with the schema keys
of the prompt; valueKey is the English value key the code also consults. -/
structure VisionResp where
  valor : Option JVal
  valueKey : Option JVal
  chave_pix_remetente : Option String
  chave_pix_destinatario : Option String
  beneficiario : Option String
  endtoend : Option String
  data : Option String
  deriving DecidableEq, Repr

/-- Models extractors.py lines 210-239: the isinstance dispatch on the
selected valor. A string runs through the currency normalizer and raising
float gives the except branch (error); a number is kept; None becomes 0. -/
def processValor : Option JVal → Except String PyFloat
  | some (.jstr s) =>
    match visionValue? s with
    | some q => .ok q
    | none => .error "could not convert string to float"
  | some (.jnum q) => .ok q
  | none => .ok ⟨false, 0, 0⟩

/-- Outcome of every external capability of one extract_proof_data call. -/
structure Env where
  clientConfigured : Bool
  ext : String
  filePath : String
  pdfTextSupport : Bool
  pdfSupport : Bool
  pdfText : Option String
  rasterOk : Bool
  rasterErr : String
  visionResp : Except String VisionResp
  deriving Repr

/-- Result dictionary of the error returns of extract_proof_data: only
value, the two keys, success and error are present. -/
def errResult (e : String) : ExtractionResult :=
  { value := none, sender_pix_key := none, receiver_pix_key := none,
    beneficiary := none, endtoend := none, date := none, method := none,
    confidence := none, success := false, error := some e }

/-- Observable outcome of one extract_proof_data call: the result, whether
control entered the vision section, whether the encode-and-request step
ran, the final filesystem, and the temporary raster path if one was
created. -/
structure RunOut where
  result : ExtractionResult
  enteredVision : Bool
  visionCalled : Bool
  fs : List String
  temp : Option String
  deriving Repr

/-- Models the temporary raster path built by pdf_to_image (extractors.py
line 73): every occurrence of .pdf in the path is replaced. -/
def replacePdfSuffix : List Char → List Char
  | '.' :: 'p' :: 'd' :: 'f' :: rest =>
    '_' :: 't' :: 'e' :: 'm' :: 'p' :: '.' :: 'j' :: 'p' :: 'g' :: replacePdfSuffix rest
  | c :: rest => c :: replacePdfSuffix rest
  | [] => []

/-- The temporary raster path of a source path. -/
def tempPathOf (p : String) : String := (replacePdfSuffix p.toList).asString

/-- Models the cleanup of the temporary file (extractors.py lines 242-247
and 264-268): remove the path when one was created; in this filesystem
model the removal succeeds. -/
def cleanupTemp (fs : List String) : Option String → List String
  | some p => fs.filter (· ≠ p)
  | none => fs

/-- The encode-request-parse-normalize step of the vision section
(extractors.py lines 123-259), after any raster conversion; temp is the
temporary file path when one was created and fs1 the filesystem holding
it. Any raised exception lands in the handler of line 260, which removes
the temporary file and returns the stripped error dictionary. -/
def callVision (env : Env) (fs1 : List String) (temp : Option String) : RunOut :=
  match env.visionResp with
  | .error e => ⟨errResult e, true, true, cleanupTemp fs1 temp, temp⟩
  | .ok resp =>
    match processValor (pyOr resp.valor resp.valueKey) with
    | .error e => ⟨errResult e, true, true, cleanupTemp fs1 temp, temp⟩
    | .ok v =>
      ⟨{ value := some v
         sender_pix_key := resp.chave_pix_remetente
         receiver_pix_key := resp.chave_pix_destinatario
         beneficiary := resp.beneficiario
         endtoend := resp.endtoend
         date := resp.data
         method := none
         confidence := some (if v.isZero then ⟨false, 5, 1⟩ else ⟨false, 95, 2⟩)
         success := v.isPos
         error := none },
       true, true, cleanupTemp fs1 temp, temp⟩

/-- The vision section of extract_proof_data (extractors.py lines
101-270): rate limiting (a pure wait, not modelled further), the
supported-extension check, the raster conversion of a PDF with its
temporary file, then the request step. -/
def visionSection (env : Env) (fs0 : List String) : RunOut :=
  if env.ext ∉ [".jpg", ".jpeg", ".png", ".pdf"] then
    ⟨errResult "Unsupported file", true, false, fs0, none⟩
  else if env.ext = ".pdf" then
    if ¬ env.pdfSupport then
      ⟨errResult "PDF não suportado. Instale: pip install pdf2image", true, false, fs0, none⟩
    else if env.rasterOk then
      let t := tempPathOf env.filePath
      callVision env (fs0 ++ [t]) (some t)
    else
      ⟨errResult env.rasterErr, true, false, fs0, none⟩
  else
    callVision env fs0 none

/-- Models extract_proof_data (extractors.py lines 83-270): the client
check, the free pdf-text attempt for PDFs, and the vision fallback. -/
def extract_proof_data (env : Env) (fs0 : List String) : RunOut :=
  if ¬ env.clientConfigured then
    ⟨errResult "OpenAI not configured", false, false, fs0, none⟩
  else
    match (if env.ext = ".pdf" ∧ env.pdfTextSupport then extract_from_pdf_text env.pdfText
           else none) with
    | some r => if r.success then ⟨r, false, false, fs0, none⟩ else visionSection env fs0
    | none => visionSection env fs0

/-- The pdf-text recognizer found a strictly positive value, the guard of
pdf_extractor.py line 199. -/
def hasPositiveValue (t : String) : Bool :=
  match (pdfRecognize t).value with
  | some v => v.isPos
  | none => false

/-! ## Concrete inputs used by witnesses and counterexamples -/

/-- Receipt text whose date is in day-first dash form. -/
def txtDashDate : String := "Valor: R$ 10,00 Data: 31-12-2023 xxxxxxxx yyyyyyyy zzzzzz"

/-- Text in which a sender label and a receiver label both precede the
same eleven-digit identifier. -/
def txtSharedSpan : String := "Pagador favorecido 12345678901"

/-- A second text with both directional labels before one identifier. -/
def txtSharedSpan2 : String := "Remetente: favorecido 98765432100"

/-- Receipt text from which the pdf-text extractor succeeds. -/
def txtPdfOk : String := "Comprovante: Valor: R$ 49.500,00 xxxxxxxxxx yyyyyyyy zzzz"

/-- The result extract_from_pdf_text produces on txtPdfOk. -/
def resPdfOk : ExtractionResult :=
  { value := some ⟨false, 4950000, 2⟩, sender_pix_key := none,
    receiver_pix_key := none, beneficiary := none, endtoend := none,
    date := none, method := some "pdf_text", confidence := some ⟨false, 98, 2⟩,
    success := true, error := none }

/-- Vision response whose valor string fails currency normalization while
the receiver key and beneficiary were recognized. -/
def respBadValor : VisionResp :=
  { valor := some (.jstr "1,2,3"), valueKey := none,
    chave_pix_remetente := none, chave_pix_destinatario := some "x",
    beneficiario := some "FULANO DE TAL", endtoend := none, data := none }

/-- Environment delivering respBadValor for a plain image document. -/
def envBadValor : Env :=
  { clientConfigured := true, ext := ".jpg", filePath := "doc.jpg",
    pdfTextSupport := true, pdfSupport := true, pdfText := none,
    rasterOk := true, rasterErr := "raster failed",
    visionResp := .ok respBadValor }

/-- Vision response with the valor field null or missing. -/
def respNullValor : VisionResp :=
  { valor := none, valueKey := none, chave_pix_remetente := none,
    chave_pix_destinatario := some "k", beneficiario := none,
    endtoend := none, data := some "2024-01-01" }

/-- Environment delivering respNullValor for a plain image document. -/
def envNullValor : Env :=
  { clientConfigured := true, ext := ".jpg", filePath := "doc.jpg",
    pdfTextSupport := true, pdfSupport := true, pdfText := none,
    rasterOk := true, rasterErr := "raster failed",
    visionResp := .ok respNullValor }

/-- Vision response carrying a positive numeric valor. -/
def respNumValor : VisionResp :=
  { valor := some (.jnum ⟨false, 10, 0⟩), valueKey := none,
    chave_pix_remetente := none, chave_pix_destinatario := none,
    beneficiario := none, endtoend := none, data := none }

/-- Environment delivering respNumValor for a plain image document. -/
def envNumValor : Env :=
  { clientConfigured := true, ext := ".jpg", filePath := "doc.jpg",
    pdfTextSupport := true, pdfSupport := true, pdfText := none,
    rasterOk := true, rasterErr := "raster failed",
    visionResp := .ok respNumValor }

/-- Environment of a PDF whose text layer succeeds. -/
def envPdfOk : Env :=
  { clientConfigured := true, ext := ".pdf", filePath := "doc.pdf",
    pdfTextSupport := true, pdfSupport := true, pdfText := some txtPdfOk,
    rasterOk := true, rasterErr := "raster failed",
    visionResp := .error "network down" }

/-- Environment of a PDF whose text layer is too short. -/
def envPdfShort : Env :=
  { clientConfigured := true, ext := ".pdf", filePath := "doc.pdf",
    pdfTextSupport := true, pdfSupport := true, pdfText := some "ab",
    rasterOk := true, rasterErr := "raster failed",
    visionResp := .ok respNumValor }

/-- Environment of a PDF that goes through raster conversion and a failing
vision request, exercising the temporary-file cleanup. -/
def envPdfRaster : Env :=
  { clientConfigured := true, ext := ".pdf", filePath := "doc.pdf",
    pdfTextSupport := false, pdfSupport := true, pdfText := none,
    rasterOk := true, rasterErr := "raster failed",
    visionResp := .error "network down" }

/-- The sender-direction label vocabulary of PATTERNS pix_remetente,
spelled out as words (the accent class and whitespace run expanded). -/
def senderVocabulary : List String :=
  ["pagador", "origem", "de", "remetente", "quem enviou"]

/-- The receiver-direction label vocabulary of PATTERNS pix_destinatario,
spelled out as words (the accent class and whitespace run expanded). -/
def receiverVocabulary : List String :=
  ["favorecido", "destinatario", "destinatário", "recebedor", "para",
   "beneficiario", "beneficiário", "quem recebeu"]

/-! ## Lemmas about splitOnC -/

theorem splitOnC_ne_nil (sep : Char) (cs : List Char) : splitOnC sep cs ≠ [] := by
  induction cs with
  | nil => simp [splitOnC]
  | cons c rest ih =>
    simp only [splitOnC]
    split
    · simp
    · cases h : splitOnC sep rest with
      | nil => simp
      | cons s ss => simp

theorem join_splitOnC (sep : Char) (cs : List Char) :
    (splitOnC sep cs).flatten = cs.filter (· ≠ sep) := by
  induction cs with
  | nil => simp [splitOnC]
  | cons c rest ih =>
    by_cases hc : c = sep
    · subst hc
      simp [splitOnC, ih]
    · simp only [splitOnC, if_neg hc]
      cases h : splitOnC sep rest with
      | nil => exact absurd h (splitOnC_ne_nil sep rest)
      | cons s ss =>
        rw [h] at ih
        have step : ((c :: s) :: ss).flatten = c :: ((s :: ss).flatten) := by simp
        rw [step, ih]
        simp [List.filter_cons, hc]

theorem not_mem_of_mem_splitOnC (sep : Char) (cs : List Char) :
    ∀ s ∈ splitOnC sep cs, sep ∉ s := by
  induction cs with
  | nil => simp [splitOnC]
  | cons c rest ih =>
    simp only [splitOnC]
    by_cases hc : c = sep
    · subst hc
      simp only [if_pos rfl]
      intro s hs
      rcases List.mem_cons.mp hs with h | h
      · subst h; simp
      · exact ih s h
    · simp only [if_neg hc]
      cases h : splitOnC sep rest with
      | nil => exact absurd h (splitOnC_ne_nil sep rest)
      | cons s ss =>
        intro t ht
        rcases List.mem_cons.mp ht with h1 | h1
        · subst h1
          intro hmem
          rcases List.mem_cons.mp hmem with h2 | h2
          · exact hc h2.symm
          · exact ih s (h ▸ List.mem_cons_self s ss) h2
        · exact ih t (h ▸ List.mem_cons_of_mem s h1)

theorem splitOnC_of_not_mem {sep : Char} {cs : List Char} (h : sep ∉ cs) :
    splitOnC sep cs = [cs] := by
  induction cs with
  | nil => simp [splitOnC]
  | cons c rest ih =>
    simp only [List.mem_cons, not_or] at h
    have hcs : ¬ c = sep := fun hh => h.1 hh.symm
    simp [splitOnC, hcs, ih h.2]

theorem splitOnC_append {sep : Char} {a : List Char} (rest : List Char) (h : sep ∉ a) :
    splitOnC sep (a ++ sep :: rest) = a :: splitOnC sep rest := by
  induction a with
  | nil => simp [splitOnC]
  | cons c as ih =>
    simp only [List.mem_cons, not_or] at h
    have hcs : ¬ c = sep := fun hh => h.1 hh.symm
    simp [splitOnC, hcs, ih h.2]

/-! ## Helper lemmas about the numeric layer -/

theorem isPos_iff_toRat_pos (x : PyFloat) : x.isPos = true ↔ 0 < x.toRat := by
  cases hn : x.neg with
  | true => simp [PyFloat.isPos, PyFloat.toRat, hn]
  | false =>
    simp [PyFloat.isPos, PyFloat.toRat, hn]
    omega

theorem pyFloat?_empty_frac {cs a : List Char} (h : splitOnC '.' cs = [a, []]) :
    pyFloat? cs = pyFloat? (cs.filter (· ≠ '.')) := by
  have hj := join_splitOnC '.' cs
  rw [h] at hj
  simp only [List.flatten_cons, List.flatten_nil, List.append_nil] at hj
  have hna : '.' ∉ a :=
    not_mem_of_mem_splitOnC '.' cs a (by rw [h]; exact List.mem_cons_self a _)
  rw [← hj]
  unfold pyFloat?
  rw [h, splitOnC_of_not_mem hna]
  simp [allDigits, digitsVal]

theorem normalizeAmount_eq_claimNoComma {cs : List Char} (h : ',' ∉ cs) :
    normalizeAmount cs = claimNoCommaValue cs := by
  unfold normalizeAmount normalizeNumeric claimNoCommaValue
  rw [if_neg h]
  cases hs : splitOnC '.' cs with
  | nil => simp
  | cons p ps =>
    cases ps with
    | nil => simp
    | cons b ps2 =>
      cases ps2 with
      | nil =>
        by_cases hb2 : b.length ≤ 2
        · by_cases hb1 : 1 ≤ b.length
          · simp [hb2, hb1]
          · have hbnil : b = [] := by
              cases b with
              | nil => rfl
              | cons x xs => exact absurd (by simp) hb1
            subst hbnil
            simp [hb2, hb1]
            simpa using pyFloat?_empty_frac hs
        · have hno : ¬ (1 ≤ b.length ∧ b.length ≤ 2) := fun hh => hb2 hh.2
          simp [hb2, hno]
      | cons q qs => simp

theorem normalizeAmount_eq_claimComma {cs : List Char} (h : ',' ∈ cs) :
    normalizeAmount cs = claimCommaValue cs := by
  unfold normalizeAmount normalizeNumeric claimCommaValue
  rw [if_pos h]

theorem normalizeNumeric_ne_nil_of_comma {cs : List Char} (h : ',' ∈ cs) :
    normalizeNumeric cs ≠ [] := by
  unfold normalizeNumeric
  rw [if_pos h]
  intro hnil
  simp [mapCommaDot] at hnil
  have := hnil ',' h
  simp at this

theorem normalizeNumeric_ne_nil_of_digit {cs : List Char} (hnc : ',' ∉ cs)
    (h : cs.any Char.isDigit = true) : normalizeNumeric cs ≠ [] := by
  obtain ⟨c, hc, hd⟩ := List.any_eq_true.mp h
  have hcd : c ≠ '.' := by
    intro hh
    rw [hh] at hd
    simp at hd
  have hfil : cs.filter (· ≠ '.') ≠ [] :=
    List.ne_nil_of_mem (List.mem_filter.mpr ⟨hc, by simpa using hcd⟩)
  have hcs : cs ≠ [] := List.ne_nil_of_mem hc
  unfold normalizeNumeric
  rw [if_neg hnc]
  cases hs : splitOnC '.' cs with
  | nil => simpa using hfil
  | cons p ps =>
    cases ps with
    | nil => simpa using hfil
    | cons b ps2 =>
      cases ps2 with
      | nil =>
        by_cases hb2 : b.length ≤ 2
        · simp [hb2]; exact hcs
        · simp [hb2]; simpa using hfil
      | cons q qs => simpa using hfil

theorem visionValue?_comma (s : String) (h : ',' ∈ stripCurrency s) :
    visionValue? s = claimCommaValue (stripCurrency s) := by
  unfold visionValue?
  simp only []
  rw [if_neg (normalizeNumeric_ne_nil_of_comma h)]
  unfold claimCommaValue normalizeNumeric
  rw [if_pos h]

theorem visionValue?_noComma (s : String) (h : ',' ∉ stripCurrency s)
    (hd : (stripCurrency s).any Char.isDigit = true) :
    visionValue? s = claimNoCommaValue (stripCurrency s) := by
  unfold visionValue?
  simp only []
  rw [if_neg (normalizeNumeric_ne_nil_of_digit h hd)]
  exact normalizeAmount_eq_claimNoComma h

/-! ## Helper lemmas about normDate -/

theorem normDate_slash_dayFirst {p0 p1 p2 : List Char}
    (h0 : '/' ∉ p0) (h1 : '/' ∉ p1) (h2 : '/' ∉ p2) (hl : p0.length ≠ 4) :
    normDate (p0 ++ '/' :: (p1 ++ '/' :: p2)) = some (p2 ++ '-' :: (p1 ++ '-' :: p0)) := by
  have hmem : '/' ∈ p0 ++ '/' :: (p1 ++ '/' :: p2) := by simp
  have hcount : (p0 ++ '/' :: (p1 ++ '/' :: p2)).count '/' = 2 := by
    simp [List.count_append, List.count_cons, List.count_eq_zero.mpr h0,
          List.count_eq_zero.mpr h1, List.count_eq_zero.mpr h2]
  have hsplit : splitOnC '/' (p0 ++ '/' :: (p1 ++ '/' :: p2)) = [p0, p1, p2] := by
    rw [splitOnC_append _ h0, splitOnC_append _ h1, splitOnC_of_not_mem h2]
  unfold normDate
  rw [if_pos hmem, if_pos hcount, hsplit]
  simp [hl]

theorem normDate_slash_yearFirst {p0 p1 p2 : List Char}
    (h0 : '/' ∉ p0) (h1 : '/' ∉ p1) (h2 : '/' ∉ p2) (hl : p0.length = 4) :
    normDate (p0 ++ '/' :: (p1 ++ '/' :: p2)) =
      some ((p0 ++ '/' :: (p1 ++ '/' :: p2)).map (fun c => if c = '/' then '-' else c)) := by
  have hmem : '/' ∈ p0 ++ '/' :: (p1 ++ '/' :: p2) := by simp
  have hcount : (p0 ++ '/' :: (p1 ++ '/' :: p2)).count '/' = 2 := by
    simp [List.count_append, List.count_cons, List.count_eq_zero.mpr h0,
          List.count_eq_zero.mpr h1, List.count_eq_zero.mpr h2]
  have hsplit : splitOnC '/' (p0 ++ '/' :: (p1 ++ '/' :: p2)) = [p0, p1, p2] := by
    rw [splitOnC_append _ h0, splitOnC_append _ h1, splitOnC_of_not_mem h2]
  unfold normDate
  rw [if_pos hmem, if_pos hcount, hsplit]
  simp [hl]

theorem normDate_dash {d : List Char} (hs : '/' ∉ d) (hd : '-' ∈ d) :
    normDate d = some d := by
  unfold normDate
  rw [if_neg hs, if_pos hd]

/-! ## Helper lemmas about the orchestrator -/

theorem visionSection_entered (env : Env) (fs0 : List String) :
    (visionSection env fs0).enteredVision = true := by
  unfold visionSection callVision
  repeat' split <;> try rfl

theorem callVision_success_value (env : Env) (fs1 : List String) (tp : Option String)
    (h : (callVision env fs1 tp).result.success = true) :
    ∃ v : PyFloat, (callVision env fs1 tp).result.value = some v ∧ v.isPos = true := by
  revert h
  unfold callVision
  split
  · intro h; simp [errResult] at h
  · split
    · intro h; simp [errResult] at h
    · intro h; exact ⟨_, rfl, h⟩

theorem visionSection_success_value (env : Env) (fs0 : List String)
    (h : (visionSection env fs0).result.success = true) :
    ∃ v : PyFloat, (visionSection env fs0).result.value = some v ∧ v.isPos = true := by
  revert h
  unfold visionSection
  split
  · intro h; simp [errResult] at h
  · split
    · split
      · intro h; simp [errResult] at h
      · split
        · exact callVision_success_value env _ _
        · intro h; simp [errResult] at h
    · exact callVision_success_value env _ _

theorem extract_from_pdf_text_success {o : Option String} {r : ExtractionResult}
    (h : extract_from_pdf_text o = some r) :
    r.success = true ∧ ∃ v : PyFloat, r.value = some v ∧ v.isPos = true := by
  cases o with
  | none => simp [extract_from_pdf_text] at h
  | some t =>
    simp only [extract_from_pdf_text] at h
    split at h
    · exact absurd h (by simp)
    · split at h
      · split at h
        · rw [Option.some_inj] at h
          subst h
          exact ⟨rfl, _, rfl, by assumption⟩
        · exact absurd h (by simp)
      · exact absurd h (by simp)

theorem not_mem_filter_self (a : String) (l : List String) : a ∉ l.filter (· ≠ a) := by
  intro h
  have := (List.mem_filter.mp h).2
  simp at this

theorem cleanupTemp_not_mem (fs : List String) (t : String) :
    t ∉ cleanupTemp fs (some t) := not_mem_filter_self t fs

theorem callVision_temp_clean (env : Env) (fs1 : List String) (tp : Option String)
    (t : String) (h : (callVision env fs1 tp).temp = some t) :
    t ∉ (callVision env fs1 tp).fs := by
  revert h
  unfold callVision
  split
  · intro h
    exact (show Option.some t = tp from (show tp = some t from h).symm) ▸
      cleanupTemp_not_mem fs1 t
  · split
    · intro h
      exact (show Option.some t = tp from (show tp = some t from h).symm) ▸
        cleanupTemp_not_mem fs1 t
    · intro h
      exact (show Option.some t = tp from (show tp = some t from h).symm) ▸
        cleanupTemp_not_mem fs1 t

theorem visionSection_temp_clean (env : Env) (fs0 : List String) (t : String)
    (h : (visionSection env fs0).temp = some t) : t ∉ (visionSection env fs0).fs := by
  revert h
  unfold visionSection
  split
  · intro h; exact Option.noConfusion (show (none : Option String) = some t from h)
  · split
    · split
      · intro h; exact Option.noConfusion (show (none : Option String) = some t from h)
      · split
        · exact callVision_temp_clean env _ _ t
        · intro h; exact Option.noConfusion (show (none : Option String) = some t from h)
    · exact callVision_temp_clean env _ _ t

/-! ## Claim theorems -/

/-- Claim C1: for every document and both extraction paths (pdf text and
vision), a returned ExtractionResult with success true carries a value
that is present and strictly greater than zero. -/
theorem success_implies_positive_value (env : Env) (fs0 : List String)
    (h : (extract_proof_data env fs0).result.success = true) :
    ∃ v : PyFloat, (extract_proof_data env fs0).result.value = some v ∧ 0 < v.toRat := by
  revert h
  unfold extract_proof_data
  split
  · intro h; simp [errResult] at h
  · split
    next r hr =>
      split
      · intro _
        split at hr
        · obtain ⟨-, v, hv, hp⟩ := extract_from_pdf_text_success hr
          exact ⟨v, hv, (isPos_iff_toRat_pos v).mp hp⟩
        · exact absurd hr (by simp)
      · intro h
        obtain ⟨v, hv, hp⟩ := visionSection_success_value env fs0 h
        exact ⟨v, hv, (isPos_iff_toRat_pos v).mp hp⟩
    next hr =>
      intro h
      obtain ⟨v, hv, hp⟩ := visionSection_success_value env fs0 h
      exact ⟨v, hv, (isPos_iff_toRat_pos v).mp hp⟩

/-- Claim C1 witness: a vision response with a positive numeric valor
produces a successful result, and the theorem yields its positive value. -/
theorem success_implies_positive_value_witness :
    ∃ v : PyFloat, (extract_proof_data envNumValor []).result.value = some v ∧ 0 < v.toRat :=
  success_implies_positive_value envNumValor [] (by decide)

/-- Claim C2: on every monetary string holding a comma, both copies of the
currency normalizer output the number obtained by removing every period
and then turning the comma into a decimal point; in particular the three
spec examples evaluate to 49500, 49.50 and 500000. -/
theorem currency_comma_normalization :
    (∀ cs : List Char, ',' ∈ cs → normalizeAmount cs = claimCommaValue cs)
    ∧ (∀ s : String, ',' ∈ stripCurrency s → visionValue? s = claimCommaValue (stripCurrency s))
    ∧ (visionValue? "R$ 49.500,00").map PyFloat.toRat = some 49500
    ∧ (visionValue? "R$ 49,50").map PyFloat.toRat = some (99 / 2)
    ∧ (visionValue? "R$ 500.000,00").map PyFloat.toRat = some 500000
    ∧ (normalizeAmount "49.500,00".toList).map PyFloat.toRat = some 49500
    ∧ (normalizeAmount "49,50".toList).map PyFloat.toRat = some (99 / 2)
    ∧ (normalizeAmount "500.000,00".toList).map PyFloat.toRat = some 500000 := by
  refine ⟨fun cs h => normalizeAmount_eq_claimComma h,
          fun s h => visionValue?_comma s h, ?_, ?_, ?_, ?_, ?_, ?_⟩
  · rw [show visionValue? "R$ 49.500,00" = some ⟨false, 4950000, 2⟩ from by decide]
    simp [PyFloat.toRat]; norm_num
  · rw [show visionValue? "R$ 49,50" = some ⟨false, 4950, 2⟩ from by decide]
    simp [PyFloat.toRat]; norm_num
  · rw [show visionValue? "R$ 500.000,00" = some ⟨false, 50000000, 2⟩ from by decide]
    simp [PyFloat.toRat]; norm_num
  · rw [show normalizeAmount "49.500,00".toList = some ⟨false, 4950000, 2⟩ from by decide]
    simp [PyFloat.toRat]; norm_num
  · rw [show normalizeAmount "49,50".toList = some ⟨false, 4950, 2⟩ from by decide]
    simp [PyFloat.toRat]; norm_num
  · rw [show normalizeAmount "500.000,00".toList = some ⟨false, 50000000, 2⟩ from by decide]
    simp [PyFloat.toRat]; norm_num

/-- Claim C2 witness: the comma rule instantiated on concrete inputs for
both normalizer copies. -/
theorem currency_comma_normalization_witness :
    (',' ∈ ("1,5".toList) ∧ normalizeAmount "1,5".toList = claimCommaValue "1,5".toList)
    ∧ (',' ∈ stripCurrency "R$ 2,5"
        ∧ visionValue? "R$ 2,5" = claimCommaValue (stripCurrency "R$ 2,5")) :=
  ⟨⟨by decide, currency_comma_normalization.1 _ (by decide)⟩,
   ⟨by decide, currency_comma_normalization.2.1 _ (by decide)⟩⟩

/-- Claim C3: on every comma-free monetary string the normalizer follows
the two-segment short-fraction rule of the specification (the pdf copy on
all inputs, the vision copy on strings holding at least one digit, where
the float(v or 0) fallback cannot fire); the spec examples evaluate to
49.85 and 49850. -/
theorem currency_noComma_normalization :
    (∀ cs : List Char, ',' ∉ cs → normalizeAmount cs = claimNoCommaValue cs)
    ∧ (∀ s : String, ',' ∉ stripCurrency s → (stripCurrency s).any Char.isDigit = true →
        visionValue? s = claimNoCommaValue (stripCurrency s))
    ∧ (normalizeAmount "49.85".toList).map PyFloat.toRat = some (997 / 20)
    ∧ (normalizeAmount "49.850".toList).map PyFloat.toRat = some 49850
    ∧ (visionValue? "49.85").map PyFloat.toRat = some (997 / 20)
    ∧ (visionValue? "49.850").map PyFloat.toRat = some 49850 := by
  refine ⟨fun cs h => normalizeAmount_eq_claimNoComma h,
          fun s h hd => visionValue?_noComma s h hd, ?_, ?_, ?_, ?_⟩
  · rw [show normalizeAmount "49.85".toList = some ⟨false, 4985, 2⟩ from by decide]
    simp [PyFloat.toRat]; norm_num
  · rw [show normalizeAmount "49.850".toList = some ⟨false, 49850, 0⟩ from by decide]
    simp [PyFloat.toRat]
  · rw [show visionValue? "49.85" = some ⟨false, 4985, 2⟩ from by decide]
    simp [PyFloat.toRat]; norm_num
  · rw [show visionValue? "49.850" = some ⟨false, 49850, 0⟩ from by decide]
    simp [PyFloat.toRat]

/-- Claim C3 witness: the comma-free rule instantiated on concrete inputs
for both normalizer copies. -/
theorem currency_noComma_normalization_witness :
    (',' ∉ ("2.5".toList) ∧ normalizeAmount "2.5".toList = claimNoCommaValue "2.5".toList)
    ∧ (',' ∉ stripCurrency "R$ 2.5" ∧ (stripCurrency "R$ 2.5").any Char.isDigit = true
        ∧ visionValue? "R$ 2.5" = claimNoCommaValue (stripCurrency "R$ 2.5")) :=
  ⟨⟨by decide, currency_noComma_normalization.1 _ (by decide)⟩,
   ⟨by decide, by decide, currency_noComma_normalization.2.1 _ (by decide) (by decide)⟩⟩

/-- Claim C4 counterexample: a vision response whose valor string fails
normalization was recognized with a receiver key and a beneficiary, yet
the returned result carries neither: the except handler of extractors.py
line 260 returns only value, the two keys as None, success and error, so
the recognized fields are not preserved as the claim states. -/
theorem parse_error_drops_fields_counterexample :
    respBadValor.chave_pix_destinatario = some "x"
    ∧ respBadValor.beneficiario = some "FULANO DE TAL"
    ∧ (extract_proof_data envBadValor []).result.value = none
    ∧ (extract_proof_data envBadValor []).result.success = false
    ∧ (extract_proof_data envBadValor []).result.receiver_pix_key = none
    ∧ (extract_proof_data envBadValor []).result.beneficiary = none := by
  refine ⟨by decide, by decide, by decide, by decide, by decide, by decide⟩

/-- Claim C4 amended: a normalization failure on the value field yields
value absent and success false, but the other recognized fields are not
carried: the vision path returns the stripped error dictionary and the
pdf-text path, when no value pattern converts, returns the
insufficient-data outcome discarding every field. -/
theorem parse_error_discards_result :
    (∀ (env : Env) (fs0 : List String) (resp : VisionResp) (s : String),
      env.clientConfigured = true → env.ext = ".jpg" → env.visionResp = .ok resp →
      pyOr resp.valor resp.valueKey = some (.jstr s) → visionValue? s = none →
      (extract_proof_data env fs0).result = errResult "could not convert string to float")
    ∧ (∀ t : String, (pdfRecognize t).value = none →
        extract_from_pdf_text (some t) = none) := by
  constructor
  · intro env fs0 resp s hc he hv hval hfail
    unfold extract_proof_data
    rw [if_neg (by simp [hc]), if_neg (by simp [he])]
    unfold visionSection
    rw [if_neg (by simp [he]), if_neg (by simp [he])]
    simp [callVision, hv, hval, processValor, hfail]
  · intro t hval
    simp only [extract_from_pdf_text]
    by_cases hlen : t = "" ∨ t.length < 50
    · simp [hlen]
    · simp [hlen, hval]

/-- Claim C4 witness: the amended behaviour instantiated on the concrete
failing response and on the empty text. -/
theorem parse_error_discards_result_witness :
    (extract_proof_data envBadValor []).result = errResult "could not convert string to float"
    ∧ extract_from_pdf_text (some "") = none :=
  ⟨parse_error_discards_result.1 envBadValor [] respBadValor "1,2,3" rfl rfl rfl
      (by decide) (by decide),
   parse_error_discards_result.2 "" (by decide)⟩

/-- Claim C5 counterexample: on a receipt whose date reads 31-12-2023 the
recognizer matches the day-first dash variant, but the extracted date
field keeps 31-12-2023 instead of the ISO form 2023-12-31 the claim
promises. -/
theorem date_normalization_counterexample :
    extractFieldSpan dataPats txtDashDate.toList = some (22, 32)
    ∧ (slice txtDashDate.toList 22 32).asString = "31-12-2023"
    ∧ (extract_from_pdf_text (some txtDashDate)).map (fun r => r.date)
        = some (some "31-12-2023")
    ∧ some (some "31-12-2023") ≠ some (some "2023-12-31") := by
  refine ⟨by decide, by decide, by decide, by decide⟩

/-- Claim C5 amended: only slash-separated matched dates are normalized,
reordered to ISO when the first segment is not four characters and
reseparated when it is; dash-separated matched dates are stored unchanged,
so a day-first dash date is not reordered. -/
theorem date_normalization_amended :
    (∀ p0 p1 p2 : List Char, '/' ∉ p0 → '/' ∉ p1 → '/' ∉ p2 → p0.length ≠ 4 →
      normDate (p0 ++ '/' :: (p1 ++ '/' :: p2)) = some (p2 ++ '-' :: (p1 ++ '-' :: p0)))
    ∧ (∀ p0 p1 p2 : List Char, '/' ∉ p0 → '/' ∉ p1 → '/' ∉ p2 → p0.length = 4 →
      normDate (p0 ++ '/' :: (p1 ++ '/' :: p2)) =
        some ((p0 ++ '/' :: (p1 ++ '/' :: p2)).map (fun c => if c = '/' then '-' else c)))
    ∧ (∀ d : List Char, '/' ∉ d → '-' ∈ d → normDate d = some d) :=
  ⟨fun _ _ _ h0 h1 h2 hl => normDate_slash_dayFirst h0 h1 h2 hl,
   fun _ _ _ h0 h1 h2 hl => normDate_slash_yearFirst h0 h1 h2 hl,
   fun _ hs hd => normDate_dash hs hd⟩

/-- Claim C5 amended witness: the day-first slash date 31/12/2023 is
reordered to 2023-12-31. -/
theorem date_normalization_amended_witness :
    normDate ("31".toList ++ '/' :: ("12".toList ++ '/' :: "2023".toList))
      = some ("2023".toList ++ '-' :: ("12".toList ++ '-' :: "31".toList)) :=
  date_normalization_amended.1 _ _ _ (by decide) (by decide) (by decide) (by decide)

/-- Claim C6 counterexample: on a text where a sender label and a receiver
label both precede one eleven-digit identifier, the recognizer assigns the
same capture span to the sender and the receiver field, contradicting the
claim that the two spans are always distinct. -/
theorem sender_receiver_span_counterexample :
    extractFieldSpan senderPats txtSharedSpan.toList
      = extractFieldSpan receiverPats txtSharedSpan.toList
    ∧ extractFieldSpan senderPats txtSharedSpan.toList ≠ none := by
  refine ⟨by decide, by decide⟩

/-- Claim C6 amended: the sender and receiver fields are extracted by
independent searches over disjoint directional label vocabularies, but
when labels of both directions precede the same identifier the two fields
can be captured from the same text span. -/
theorem sender_receiver_vocabularies :
    (∀ w ∈ senderVocabulary, w ∉ receiverVocabulary)
    ∧ extractField senderPats txtSharedSpan2.toList = some "98765432100"
    ∧ extractField receiverPats txtSharedSpan2.toList = some "98765432100"
    ∧ extractFieldSpan senderPats txtSharedSpan2.toList
        = extractFieldSpan receiverPats txtSharedSpan2.toList := by
  refine ⟨by decide, by decide, by decide, by decide⟩

/-- Claim C6 amended witness: the vocabulary disjointness instantiated on
the first sender label. -/
theorem sender_receiver_vocabularies_witness :
    "pagador" ∈ senderVocabulary ∧ "pagador" ∉ receiverVocabulary :=
  ⟨by decide, sender_receiver_vocabularies.1 "pagador" (by decide)⟩

/-- Claim C7: when the pdf-text extractor succeeds, the orchestrator
returns that result and never reaches the vision section, so no model
call is made. -/
theorem text_success_short_circuits_vision (env : Env) (fs0 : List String)
    (r : ExtractionResult) (hc : env.clientConfigured = true) (he : env.ext = ".pdf")
    (hs : env.pdfTextSupport = true) (hr : extract_from_pdf_text env.pdfText = some r)
    (hsucc : r.success = true) :
    (extract_proof_data env fs0).visionCalled = false
    ∧ (extract_proof_data env fs0).enteredVision = false
    ∧ (extract_proof_data env fs0).result = r := by
  have hres : extract_proof_data env fs0 = ⟨r, false, false, fs0, none⟩ := by
    unfold extract_proof_data
    rw [if_neg (by simp [hc]), if_pos ⟨he, hs⟩, hr]
    simp [hsucc]
  rw [hres]
  exact ⟨rfl, rfl, rfl⟩

/-- Claim C7 witness: on a PDF whose text layer yields a positive value,
the orchestrator returns the pdf-text result without a vision call. -/
theorem text_success_short_circuits_vision_witness :
    (extract_proof_data envPdfOk []).visionCalled = false
    ∧ (extract_proof_data envPdfOk []).enteredVision = false
    ∧ (extract_proof_data envPdfOk []).result = resPdfOk :=
  text_success_short_circuits_vision envPdfOk [] resPdfOk rfl rfl rfl (by decide) (by decide)

/-- Claim C8: empty text, short text or a missing positive value makes the
pdf-text extractor return the explicit insufficient-data outcome (a plain
None return, not an error or exception), after which the orchestrator
passes control to the vision section. -/
theorem insufficient_text_falls_back (env : Env) (fs0 : List String) (t : String)
    (hc : env.clientConfigured = true) (he : env.ext = ".pdf")
    (hs : env.pdfTextSupport = true) (ht : env.pdfText = some t)
    (hins : t = "" ∨ t.length < 50 ∨ hasPositiveValue t = false) :
    extract_from_pdf_text (some t) = none
    ∧ (extract_proof_data env fs0).enteredVision = true := by
  have hnone : extract_from_pdf_text (some t) = none := by
    simp only [extract_from_pdf_text]
    by_cases hlen : t = "" ∨ t.length < 50
    · simp [hlen]
    · rw [if_neg hlen]
      rcases hins with h | h | h
      · exact absurd (Or.inl h) hlen
      · exact absurd (Or.inr h) hlen
      · unfold hasPositiveValue at h
        cases hv : (pdfRecognize t).value with
        | none => simp [hv]
        | some v =>
          rw [hv] at h
          simp only [] at h
          simp [hv, h]
  refine ⟨hnone, ?_⟩
  unfold extract_proof_data
  rw [if_neg (by simp [hc]), if_pos ⟨he, hs⟩, ht, hnone]
  exact visionSection_entered env fs0

/-- Claim C8 witness: a two-character text layer is insufficient and the
orchestrator proceeds to the vision attempt. -/
theorem insufficient_text_falls_back_witness :
    extract_from_pdf_text (some "ab") = none
    ∧ (extract_proof_data envPdfShort []).enteredVision = true :=
  insufficient_text_falls_back envPdfShort [] "ab" rfl rfl rfl (by decide)
    (Or.inr (Or.inl (by decide)))

/-- Claim C9: whenever a temporary raster file was created during an
extraction call, its path is absent from the filesystem when the call
returns, on success and on failure alike. -/
theorem temp_file_removed (env : Env) (fs0 : List String) (t : String)
    (h : (extract_proof_data env fs0).temp = some t) :
    t ∉ (extract_proof_data env fs0).fs := by
  revert h
  unfold extract_proof_data
  split
  · intro h; exact Option.noConfusion (show (none : Option String) = some t from h)
  · split
    · split
      · intro h; exact Option.noConfusion (show (none : Option String) = some t from h)
      · exact visionSection_temp_clean env fs0 t
    · exact visionSection_temp_clean env fs0 t

/-- Claim C9 witness: a rasterized PDF whose vision request fails still
ends with the temporary raster path removed. -/
theorem temp_file_removed_witness :
    (extract_proof_data envPdfRaster ["doc.pdf"]).temp = some "doc_temp.jpg"
    ∧ "doc_temp.jpg" ∉ (extract_proof_data envPdfRaster ["doc.pdf"]).fs :=
  ⟨by decide, temp_file_removed envPdfRaster ["doc.pdf"] "doc_temp.jpg" (by decide)⟩

/-- Claim C10: a well-formed vision response whose valor is null or
missing yields a result whose value is the number zero (present), with
success false and confidence one half. -/
theorem null_valor_yields_zero (env : Env) (fs0 : List String) (resp : VisionResp)
    (hc : env.clientConfigured = true) (he : env.ext = ".jpg")
    (hv : env.visionResp = .ok resp) (h1 : resp.valor = none) (h2 : resp.valueKey = none) :
    (extract_proof_data env fs0).result.value = some ⟨false, 0, 0⟩
    ∧ ((extract_proof_data env fs0).result.value).map PyFloat.toRat = some 0
    ∧ (extract_proof_data env fs0).result.success = false
    ∧ (extract_proof_data env fs0).result.confidence = some ⟨false, 5, 1⟩
    ∧ ((extract_proof_data env fs0).result.confidence).map PyFloat.toRat = some (1 / 2) := by
  have key : extract_proof_data env fs0 = callVision env fs0 none := by
    unfold extract_proof_data
    rw [if_neg (by simp [hc]), if_neg (by simp [he])]
    unfold visionSection
    rw [if_neg (by simp [he]), if_neg (by simp [he])]
  have hres : (extract_proof_data env fs0).result =
      { value := some ⟨false, 0, 0⟩, sender_pix_key := resp.chave_pix_remetente,
        receiver_pix_key := resp.chave_pix_destinatario, beneficiary := resp.beneficiario,
        endtoend := resp.endtoend, date := resp.data, method := none,
        confidence := some ⟨false, 5, 1⟩, success := false, error := none } := by
    rw [key]
    simp [callVision, hv, h1, h2, pyOr, processValor, PyFloat.isPos, PyFloat.isZero]
  rw [hres]
  refine ⟨rfl, ?_, rfl, rfl, ?_⟩
  · simp [PyFloat.toRat]
  · simp [PyFloat.toRat]
    norm_num

/-- Claim C10 witness: the null-valor behaviour on a concrete response. -/
theorem null_valor_yields_zero_witness :
    (extract_proof_data envNullValor []).result.value = some ⟨false, 0, 0⟩
    ∧ ((extract_proof_data envNullValor []).result.value).map PyFloat.toRat = some 0
    ∧ (extract_proof_data envNullValor []).result.success = false
    ∧ (extract_proof_data envNullValor []).result.confidence = some ⟨false, 5, 1⟩
    ∧ ((extract_proof_data envNullValor []).result.confidence).map PyFloat.toRat
        = some (1 / 2) :=
  null_valor_yields_zero envNullValor [] respNullValor rfl rfl rfl rfl rfl

end FluxoCash
